import Mathlib

set_option maxRecDepth 10000

/-! Verification of the notebook_tools package (lending-club repository).

This file gives a shallow embedding of the dataframe-level operations of the
package and proves the documented properties about them.  A pandas column is
modelled as a `List` of cells, a nullable cell as an `Option`, and an operation
that can raise a Python exception is modelled with `Except`.  Python `str`
values are Lean `String`s (the repository only manipulates ASCII text), Python
`int` is `Int`/`Nat`, and the nullable numeric columns use `Option`.
-/

/-! Shared string helpers.  The Python `str.lower`, `str.upper`, `str.split("-")`
and lexicographic string comparison are embedded over `List Char`. -/

/-- Lower-case every character of a string, as Python `str.lower` does on the
ASCII text appearing in this dataset. -/
def toLowerStr (s : String) : String :=
  String.mk (s.data.map Char.toLower)

/-- Upper-case every character of a string, as Python `str.upper` does on the
ASCII text appearing in this dataset. -/
def toUpperStr (s : String) : String :=
  String.mk (s.data.map Char.toUpper)

/-- Helper for splitting a character list at every hyphen; `acc` holds the
characters of the current field in reverse order. -/
def splitHyphenAux : List Char → List Char → List (List Char)
  | [], acc => [acc.reverse]
  | c :: rest, acc =>
      if c = '-' then acc.reverse :: splitHyphenAux rest []
      else splitHyphenAux rest (c :: acc)

/-- The Python `s.split("-")` for the one-character separator `"-"`. -/
def splitHyphen (l : List Char) : List (List Char) :=
  splitHyphenAux l []

/-- Lexicographic (code-point) strict comparison of character lists; this is
the order Python uses to compare `str` values. -/
def lexLt : List Char → List Char → Bool
  | [], [] => false
  | [], _ :: _ => true
  | _ :: _, [] => false
  | a :: as, b :: bs => if a < b then true else if b < a then false else lexLt as bs

/-- A Python `dict` with string keys, embedded as an association list looked up
front to back. -/
def dictGet {β : Type} : List (String × β) → String → Option β
  | [], _ => none
  | (k, v) :: rest, key => if key = k then some v else dictGet rest key

/-- The ten decimal digit characters. -/
def digitChars : List Char :=
  ['0', '1', '2', '3', '4', '5', '6', '7', '8', '9']

/-- Numeric value of a decimal digit character. -/
def digitVal (c : Char) : Nat :=
  c.toNat - 48

/-- The natural number denoted by a list of decimal digit characters, read
most-significant first. -/
def parseVal (l : List Char) : Nat :=
  l.foldl (fun acc c => 10 * acc + digitVal c) 0

/-! Embedding of `notebook_tools/database.py`, function `create_database`
(together with the `_delete_database` branch it calls).  The interesting
behaviour is the interactive control flow, so the model records whether the old
store file was deleted, whether the "Returning." notice was printed, and which
tables the store holds afterwards.  Dataframes are an opaque type `α`. -/

/-- Outcome of a `create_database` call: whether the existing database file was
deleted, whether the early-return notice was printed, and the tables held by
the store after the call returns. -/
structure CreateDatabaseResult (α : Type) where
  deleted_old : Bool
  printed_notice : Bool
  store_tables : List (String × α)
deriving DecidableEq

/-- Embedding of `create_database` from `notebook_tools/database.py`.  When the
database file exists the user is prompted; the reply `"yes"` deletes the old
file (via `_delete_database`) and writes the new tables, any other reply prints
a notice and returns early leaving the existing tables unchanged.  When the
file does not exist the tables are written directly.  No path raises, which the
`Except` result makes explicit. -/
def create_database {α : Type} (database_file_exists : Bool)
    (existing_tables : List (String × α)) (response : String)
    (tables : List (String × α)) : Except String (CreateDatabaseResult α) :=
  if database_file_exists then
    if response = "yes" then
      Except.ok ⟨true, false, tables⟩
    else
      Except.ok ⟨false, true, existing_tables⟩
  else
    Except.ok ⟨false, false, tables⟩

/-! Embedding of the boolean conversion pass of `convert_acc_loan_data` in
`notebook_tools/data_cleaning.py` (the `"booleans"` step): the column is
upper-cased, then mapped through `{"N": False, "Y": True}` with
`na_action="ignore"`; the pandas `Series.map` method sends keys missing from the mapper
to the null marker. -/

/-- The mapper dictionary `{"N": False, "Y": True}` of the boolean pass. -/
def boolean_mapper : List (String × Bool) :=
  [("N", false), ("Y", true)]

/-- One cell of the boolean conversion pass: nulls are skipped
(`na_action="ignore"`), other cells are upper-cased and looked up in
`boolean_mapper`; a missing key becomes the null marker. -/
def convert_boolean_cell (cell : Option String) : Option Bool :=
  match cell with
  | none => none
  | some s => dictGet boolean_mapper (toUpperStr s)

/-- The boolean conversion pass applied to a whole column. -/
def convert_boolean_column (col : List (Option String)) : List (Option Bool) :=
  col.map convert_boolean_cell

/-! Embedding of the date normalizer of `notebook_tools/data_cleaning.py`:
`define_month_conversions` and `_get_iso_date_string` (named
`get_iso_date_string` here because Lean identifiers do not start with an
underscore), plus the per-cell date pass of `convert_acc_loan_data`, which maps
the cells with `na_action="ignore"`. -/

/-- A Python exception raised by the string-parsing step: unpacking a split
with the wrong number of fields raises `ValueError`, a missing dictionary key
raises `KeyError`. -/
inductive PyErr : Type
  | valueError (msg : String)
  | keyError (key : String)
deriving DecidableEq

/-- The capitalized month names in chronological order, as provided by
`calendar.month_name` once the leading empty string is discarded. -/
def month_name : List String :=
  ["January", "February", "March", "April", "May", "June",
   "July", "August", "September", "October", "November", "December"]

/-- The Python `format(n, "02")` rendering: the decimal rendering of `n` left-padded with
zeros to width two. -/
def format02 (n : Nat) : String :=
  if n < 10 then "0" ++ toString n else toString n

/-- Embedding of `define_month_conversions`: the dictionary sending each
lower-cased three-letter month abbreviation to its two-digit ISO month
number. -/
def define_month_conversions : List (String × String) :=
  month_name.enum.map
    (fun p => (String.mk ((p.2.data.map Char.toLower).take 3), format02 (p.1 + 1)))

/-- Embedding of `_get_iso_date_string`: lower-case the element, split it at
`"-"`, unpack the two fields as month and year (a `ValueError` if the split
does not have exactly two fields), and look the month up in
`define_month_conversions` (a `KeyError` if it is absent). -/
def get_iso_date_string (element : String) : Except PyErr String :=
  match splitHyphen (toLowerStr element).data with
  | [monthChars, yearChars] =>
      match dictGet define_month_conversions (String.mk monthChars) with
      | some label => Except.ok (String.mk yearChars ++ "-" ++ label)
      | none => Except.error (PyErr.keyError (String.mk monthChars))
  | [_] => Except.error (PyErr.valueError "not enough values to unpack (expected 2, got 1)")
  | _ => Except.error (PyErr.valueError "too many values to unpack (expected 2)")

/-- One cell of the date conversion pass of `convert_acc_loan_data`: null
cells are skipped (`na_action="ignore"`), and `get_iso_date_string` is applied
to the rest, with its exceptions propagating. -/
def convert_date_cell (cell : Option String) : Except PyErr (Option String) :=
  match cell with
  | none => Except.ok none
  | some s =>
      match get_iso_date_string s with
      | Except.ok v => Except.ok (some v)
      | Except.error e => Except.error e

/-! Embedding of `get_duration` from `notebook_tools/derived_features.py`.
The pandas pipeline converts each date column with
`pd.to_datetime(..., format="ISO8601").dt.to_period(freq="M")` and subtracts
the periods; the columns hold either the null marker or an ISO `"YYYY-MM"`
string (the invariant the data-cleaning step establishes), so the conversion is
embedded as a parser of `"YYYY-MM"` strings that raises on anything else, and a
period is identified with its month count `year * 12 + month`.  A null
endpoint becomes `NaT`, whose difference is null.  Because `pd.to_datetime`
produces nanosecond-resolution values, it raises `OutOfBoundsDatetime` for any
date outside `pd.Timestamp.min` (1677-09-21 00:12:43) and `pd.Timestamp.max`
(2262-04-11 23:47:16); a `"YYYY-MM"` string parses to the first instant of its
month, so exactly the months 1677-10 through 2262-04 convert successfully, and
the embedding checks that range. -/

/-- Parse an ISO `"YYYY-MM"` string into its year and month: four decimal
digits, a hyphen, and two decimal digits denoting a month between 01 and 12.
Anything else is rejected, as `pd.to_datetime` raises on it.  The
nanosecond-timestamp range check happens separately, in `to_period_cell`. -/
def parseYM (s : String) : Option (Nat × Nat) :=
  match splitHyphen s.data with
  | [ys, ms] =>
      if ys.length = 4 ∧ ms.length = 2 ∧ (∀ c ∈ ys, c ∈ digitChars) ∧
          (∀ c ∈ ms, c ∈ digitChars) ∧ 1 ≤ parseVal ms ∧ parseVal ms ≤ 12 then
        some (parseVal ys, parseVal ms)
      else
        none
  | _ => none

/-- Whether a `(year, month)` pair lies in the range of month strings that fit
in a nanosecond timestamp: at month granularity, 1677-10 through 2262-04
(the first day of the month must lie between `pd.Timestamp.min`, which falls
inside 1677-09, and `pd.Timestamp.max`, which falls inside 2262-04). -/
def in_timestamp_bounds (p : Nat × Nat) : Bool :=
  decide (1677 * 12 + 10 ≤ p.1 * 12 + p.2) && decide (p.1 * 12 + p.2 ≤ 2262 * 12 + 4)

/-- Convert one cell of a date column to a month-granularity period: a null
cell becomes the null period `NaT`, a well-formed `"YYYY-MM"` string inside
the nanosecond-timestamp range becomes its `(year, month)` period, a
well-formed string outside that range raises `OutOfBoundsDatetime`, and any
other string raises `ValueError`. -/
def to_period_cell (cell : Option String) : Except String (Option (Nat × Nat)) :=
  match cell with
  | none => Except.ok none
  | some s =>
      match parseYM s with
      | some p =>
          if in_timestamp_bounds p then Except.ok (some p)
          else Except.error "OutOfBoundsDatetime: Out of bounds nanosecond timestamp"
      | none => Except.error "ValueError: time data does not match ISO8601 format"

/-- One row of `get_duration`: convert the start and end cells to periods and
subtract; a null on either side gives a null difference, and the integer number
of months in the offset is `(end_year * 12 + end_month) -
(start_year * 12 + start_month)`, the difference of the period ordinals. -/
def durationRow (row : Option String × Option String) : Except String (Option Int) :=
  match to_period_cell row.1, to_period_cell row.2 with
  | Except.error e, _ => Except.error e
  | Except.ok _, Except.error e => Except.error e
  | Except.ok startP, Except.ok endP =>
      match startP, endP with
      | some (y1, m1), some (y2, m2) =>
          Except.ok (some ((y2 * 12 + m2 : Int) - (y1 * 12 + m1 : Int)))
      | _, _ => Except.ok none

/-- Embedding of `get_duration`: the row-wise duration over the two aligned
date columns, as a nullable integer column; a malformed date anywhere raises
for the whole series. -/
def get_duration (rows : List (Option String × Option String)) :
    Except String (List (Option Int)) :=
  match rows with
  | [] => Except.ok []
  | r :: rest =>
      match durationRow r, get_duration rest with
      | Except.ok v, Except.ok tail => Except.ok (v :: tail)
      | Except.error e, _ => Except.error e
      | Except.ok _, Except.error e => Except.error e

/-! Embedding of `get_annualized_return` from
`notebook_tools/derived_features.py`.  The clamp
`lambda val: val if val >= 1 else 1` is applied to the nullable integer
duration column; on the null marker `val >= 1` is `pd.NA`, and using `pd.NA`
as a branch condition raises `TypeError`, so a null duration raises rather
than propagating.  The profit column is nullable floating point, through which
nulls propagate.  Real numbers stand in for Python floats. -/

/-- One cell of the annualized-return formula
`(1 + profit) ** (12 / months) - 1`, for an already clamped month count; a
null profit propagates to a null result. -/
noncomputable def annualized_cell (profit : Option ℝ) (months : Int) : Option ℝ :=
  match profit with
  | none => none
  | some p => some ((1 + p) ^ ((12 : ℝ) / (months : ℝ)) - 1)

/-- Embedding of `get_annualized_return` over the aligned profit and duration
columns: each duration is clamped by `val if val >= 1 else 1` (raising
`TypeError` on a null duration), and the clamped count feeds the per-row
formula. -/
noncomputable def get_annualized_return (rows : List (Option ℝ × Option Int)) :
    Except String (List (Option ℝ)) :=
  match rows with
  | [] => Except.ok []
  | (p, d) :: rest =>
      match d with
      | none => Except.error "TypeError: boolean value of NA is ambiguous"
      | some v =>
          match get_annualized_return rest with
          | Except.ok tail =>
              Except.ok (annualized_cell p (if 1 ≤ v then v else 1) :: tail)
          | Except.error e => Except.error e

/-! Embedding of `filter_acc_loan_data` from
`notebook_tools/data_cleaning.py`.  A row carries the four columns the filter
reads; `loan_status` is nullable (`notna` is part of the filter), the interest
rate is a rational standing in for the float column. -/

/-- The columns of the accepted-loans table read by `filter_acc_loan_data`. -/
structure AccLoanRow where
  loan_status : Option String
  issue_d : String
  grade : String
  int_rate : ℚ
deriving DecidableEq

/-- The boolean row mask of `filter_acc_loan_data`: `loan_status` non-null and
not starting with `"Does not meet"`, `issue_d >= "2012-01"` in the
lexicographic string order, and neither of the two anomalous
grade/interest-rate combinations. -/
def acc_loan_keep (row : AccLoanRow) : Bool :=
  (match row.loan_status with
   | none => false
   | some st => !(List.isPrefixOf "Does not meet".data st.data))
  && !(lexLt row.issue_d.data "2012-01".data)
  && !(((row.grade != "A") && decide (row.int_rate < 7))
       || ((row.grade == "D") && decide (row.int_rate < 9)))

/-- Embedding of `filter_acc_loan_data`: keep exactly the rows selected by the
boolean mask. -/
def filter_acc_loan_data (data : List AccLoanRow) : List AccLoanRow :=
  data.filter acc_loan_keep

/-! Embedding of `format_counts` from `notebook_tools/plots.py`.  The tick
value is truncated to an `int`; values below a thousand are rendered plainly,
larger values are divided by 1,000 (`k`) or 1,000,000 (`M`): exactly divisible
values via `format(..., ",")` (decimal with thousands separators), the rest via
`format(tick_value / divisor, ".2f")`.  The float division and the two-decimal
rendering are embedded exactly: the quotient is rounded to the nearest
binary64 value (53 significant bits, ties to even — overflow and subnormals
are far outside the tick range), and `".2f"` rounds that binary value to two
decimals, again ties to even, matching the correctly-rounded float formatting of CPython. -/

/-- Insert a comma after every third character; applied to a reversed digit
list to embed the thousands separators of the Python `format(n, ",")` rendering. -/
def group3 : List Char → List Char
  | a :: b :: c :: d :: rest => a :: b :: c :: ',' :: group3 (d :: rest)
  | l => l

/-- The Python `format(n, ",")` rendering of a natural number: decimal digits grouped in
threes by commas. -/
def commaGroupNat (n : Nat) : String :=
  String.mk (((group3 ((toString n).data.reverse))).reverse)

/-- The Python `format(n, ",")` rendering of an integer. -/
def commaGroupInt (n : Int) : String :=
  if n < 0 then "-" ++ commaGroupNat (-n).toNat else commaGroupNat n.toNat

/-- Round the fraction `num / den` to the nearest natural number, ties to
even. -/
def roundHalfEvenPair (num den : Nat) : Nat :=
  let q := num / den
  let r := num % den
  if 2 * r < den then q
  else if den < 2 * r then q + 1
  else if q % 2 = 0 then q else q + 1

/-- Largest `k` with `b * 2 ^ k ≤ a`, for `b ≤ a`; the fuel only bounds the
recursion depth. -/
def countUp (a b : Nat) : Nat → Nat
  | 0 => 0
  | fuel + 1 => if 2 * b ≤ a then 1 + countUp a (2 * b) fuel else 0

/-- Smallest `k ≥ 1` with `b ≤ a * 2 ^ k`, for `a < b`; the fuel only bounds
the recursion depth. -/
def countDown (a b : Nat) : Nat → Nat
  | 0 => 0
  | fuel + 1 => if b ≤ 2 * a then 1 else 1 + countDown (2 * a) b fuel

/-- Round the positive fraction `a / b` to the nearest binary64 value,
returned as a dyadic pair `(m, e2)` denoting `m * 2 ^ e2`: the binary exponent
is located, the fraction is scaled to a 53-bit significand, and the
significand is rounded to nearest, ties to even. -/
def floatApprox (a b : Nat) : Nat × Int :=
  if a = 0 then (0, 0)
  else
    let e : Int := if b ≤ a then (countUp a b a : Int) else -(countDown a b b : Int)
    let e2 : Int := e - 52
    let m : Nat :=
      if e2 ≤ 0 then roundHalfEvenPair (a * 2 ^ (-e2).toNat) b
      else roundHalfEvenPair a (b * 2 ^ e2.toNat)
    (m, e2)

/-- The Python `format(x, ".2f")` rendering of a non-negative binary64 value given as the
dyadic pair `(m, e2)`: the value is rounded to two decimal places, ties to
even, and printed with exactly two fractional digits. -/
def render2fDyadic (m : Nat) (e2 : Int) : String :=
  let n2 : Nat :=
    if 0 ≤ e2 then 100 * m * 2 ^ e2.toNat
    else roundHalfEvenPair (100 * m) (2 ^ (-e2).toNat)
  toString (n2 / 100) ++ "." ++
    (if n2 % 100 < 10 then "0" ++ toString (n2 % 100) else toString (n2 % 100))

/-- The composite `format(a / b, ".2f")` of Python: binary64 division followed
by two-decimal rendering. -/
def floatDivRender2f (a b : Nat) : String :=
  render2fDyadic (floatApprox a b).1 (floatApprox a b).2

/-- The body of `format_counts` after `int(tick_value)`: plain rendering below
1,000, thousands with suffix `k` below 1,000,000, millions with suffix `M`
above; exactly divisible values are comma-grouped integers, others rendered
with two decimals. -/
def format_counts_core (t : Int) : String :=
  if t < 1000 then toString t
  else if t < 1000000 then
    if Int.emod t 1000 = 0 then commaGroupInt (Int.ediv t 1000) ++ "k"
    else floatDivRender2f t.toNat 1000 ++ "k"
  else
    if Int.emod t 1000000 = 0 then commaGroupInt (Int.ediv t 1000000) ++ "M"
    else floatDivRender2f t.toNat 1000000 ++ "M"

/-- The Python `int(...)` truncation of a rational tick value: truncation toward zero. -/
def intTrunc (q : ℚ) : Int :=
  if 0 ≤ q then ⌊q⌋ else ⌈q⌉

/-- Embedding of `format_counts`: the tick value is truncated to an integer and
rendered by `format_counts_core`; the tick position is ignored. -/
def format_counts (tick_value : ℚ) (_tick_position : ℚ) : String :=
  format_counts_core (intTrunc tick_value)

/-! Helper lemmas about the string utilities. -/

/-- Reading back the code point of a character built from a valid code
point. -/
theorem char_toNat_ofNat (n : Nat) (h : n.isValidChar) : (Char.ofNat n).toNat = n := by
  simp [Char.ofNat, h, Char.ofNatAux, Char.toNat, UInt32.toNat, BitVec.toNat_ofNatLt]

/-- Lower-casing maps no other character to the hyphen. -/
theorem toLower_eq_hyphen {c : Char} (h : Char.toLower c = '-') : c = '-' := by
  unfold Char.toLower at h
  simp only [] at h
  by_cases hc : c.toNat ≥ 65 ∧ c.toNat ≤ 90
  · rw [if_pos hc] at h
    exfalso
    have hv : (c.toNat + 32).isValidChar := by
      unfold Nat.isValidChar
      omega
    have h2 := congrArg Char.toNat h
    rw [char_toNat_ofNat _ hv] at h2
    rw [show ('-').toNat = 45 from rfl] at h2
    omega
  · rwa [if_neg hc] at h

/-- Lower-casing a character preserves hyphenhood in both directions. -/
theorem toLower_hyphen_iff (c : Char) : Char.toLower c = '-' ↔ c = '-' := by
  constructor
  · exact toLower_eq_hyphen
  · intro h
    rw [h]
    decide

/-- Lower-casing a string preserves its number of hyphens. -/
theorem count_hyphen_map_toLower (l : List Char) :
    (l.map Char.toLower).count '-' = l.count '-' := by
  induction l with
  | nil => rfl
  | cons c rest ih =>
      simp only [List.map_cons, List.count_cons, ih]
      congr 1
      by_cases hc : c = '-'
      · subst hc
        decide
      · have : Char.toLower c ≠ '-' := fun h => hc (toLower_eq_hyphen h)
        simp [hc, this]

/-- Splitting a hyphen-free list at hyphens yields a single field. -/
theorem splitHyphenAux_no_hyphen (l : List Char) :
    ∀ acc : List Char, (∀ c ∈ l, c ≠ '-') → splitHyphenAux l acc = [acc.reverse ++ l] := by
  induction l with
  | nil =>
      intro acc _
      simp [splitHyphenAux]
  | cons c rest ih =>
      intro acc h
      have hc : c ≠ '-' := h c (by simp)
      rw [splitHyphenAux, if_neg hc, ih (c :: acc) (fun x hx => h x (by simp [hx]))]
      simp

/-- Splitting a list whose first field is hyphen-free peels off that field. -/
theorem splitHyphenAux_split (ys ms : List Char) :
    ∀ acc : List Char, (∀ c ∈ ys, c ≠ '-') →
      splitHyphenAux (ys ++ '-' :: ms) acc = (acc.reverse ++ ys) :: splitHyphenAux ms [] := by
  induction ys with
  | nil =>
      intro acc _
      simp [splitHyphenAux]
  | cons c rest ih =>
      intro acc h
      have hc : c ≠ '-' := h c (by simp)
      rw [List.cons_append, splitHyphenAux, if_neg hc,
        ih (c :: acc) (fun x hx => h x (by simp [hx]))]
      simp

/-- Splitting `ys ++ "-" ++ ms` with hyphen-free `ys` and `ms` gives exactly
the two fields. -/
theorem splitHyphen_pair (ys ms : List Char) (hys : ∀ c ∈ ys, c ≠ '-')
    (hms : ∀ c ∈ ms, c ≠ '-') : splitHyphen (ys ++ '-' :: ms) = [ys, ms] := by
  unfold splitHyphen
  rw [splitHyphenAux_split ys ms [] hys, splitHyphenAux_no_hyphen ms [] hms]
  simp

/-- The number of fields returned by the split is the hyphen count plus
one. -/
theorem splitHyphenAux_length (l : List Char) :
    ∀ acc : List Char, (splitHyphenAux l acc).length = l.count '-' + 1 := by
  induction l with
  | nil =>
      intro acc
      simp [splitHyphenAux]
  | cons c rest ih =>
      intro acc
      by_cases hc : c = '-'
      · subst hc
        simp [splitHyphenAux, List.count_cons, ih]
      · simp [splitHyphenAux, hc, List.count_cons, ih]

/-- A successful dictionary lookup comes from a pair of the association
list. -/
theorem dictGet_mem {β : Type} (l : List (String × β)) (key : String) (v : β)
    (h : dictGet l key = some v) : (key, v) ∈ l := by
  induction l with
  | nil => simp [dictGet] at h
  | cons kv rest ih =>
      rcases kv with ⟨k, w⟩
      by_cases hk : key = k
      · subst hk
        rw [dictGet, if_pos rfl] at h
        rw [Option.some_inj] at h
        subst h
        exact List.mem_cons_self _ _
      · rw [dictGet, if_neg hk] at h
        exact List.mem_cons_of_mem _ (ih h)

/-- Decimal digit characters are fixed points of lower-casing. -/
theorem digit_toLower {c : Char} (h : c ∈ digitChars) : Char.toLower c = c := by
  fin_cases h <;> decide

/-- No decimal digit character is a hyphen. -/
theorem digit_ne_hyphen {c : Char} (h : c ∈ digitChars) : c ≠ '-' := by
  fin_cases h <;> decide

/-- C7: when the store file already exists, `create_database` writes tables
only after the interactive reply is exactly `"yes"`, deleting the old file
first; every other reply returns early with the printed notice, raises no
exception, and leaves the existing tables unchanged. -/
theorem create_database_spec :
    (∀ (α : Type) (existing tables : List (String × α)) (response : String),
        response ≠ "yes" →
          create_database true existing response tables =
            Except.ok ⟨false, true, existing⟩)
    ∧ (∀ (α : Type) (existing tables : List (String × α)),
        create_database true existing "yes" tables =
          Except.ok ⟨true, false, tables⟩) := by
  constructor
  · intro α existing tables response h
    simp [create_database, h]
  · intro α existing tables
    simp [create_database]

/-- Witness for C7 at the reply `"no"`. -/
theorem create_database_spec_witness :
    ("no" : String) ≠ "yes" ∧
      create_database true [("loan_data", 1)] "no" [("loan_data", 2)] =
        Except.ok ⟨false, true, [("loan_data", 1)]⟩ :=
  ⟨by decide, create_database_spec.1 ℕ [("loan_data", 1)] [("loan_data", 2)] "no" (by decide)⟩

/-- C8: in the boolean conversion pass, a non-null cell whose upper-cased
value is neither `"Y"` nor `"N"` becomes the null marker (no error is raised),
while `"y"`/`"Y"` map to true and `"n"`/`"N"` map to false. -/
theorem convert_boolean_spec :
    (∀ s : String, toUpperStr s ≠ "Y" → toUpperStr s ≠ "N" →
        convert_boolean_cell (some s) = none)
    ∧ convert_boolean_cell (some "y") = some true
    ∧ convert_boolean_cell (some "Y") = some true
    ∧ convert_boolean_cell (some "n") = some false
    ∧ convert_boolean_cell (some "N") = some false := by
  refine ⟨?_, by decide, by decide, by decide, by decide⟩
  intro s hy hn
  simp [convert_boolean_cell, boolean_mapper, dictGet, hy, hn]

/-- Witness for C8 at the unmapped cell value `"Maybe"`. -/
theorem convert_boolean_spec_witness :
    toUpperStr "Maybe" ≠ "Y" ∧ toUpperStr "Maybe" ≠ "N" ∧
      convert_boolean_cell (some "Maybe") = none :=
  ⟨by decide, by decide, convert_boolean_spec.1 "Maybe" (by decide) (by decide)⟩

/-- The boolean row mask holds exactly when the three documented conditions
hold. -/
theorem acc_loan_keep_iff (r : AccLoanRow) :
    acc_loan_keep r = true ↔
      (∃ st, r.loan_status = some st ∧
          ¬ List.isPrefixOf "Does not meet".data st.data) ∧
        ¬ lexLt r.issue_d.data "2012-01".data ∧
        ¬ ((r.grade ≠ "A" ∧ r.int_rate < 7) ∨ (r.grade = "D" ∧ r.int_rate < 9)) := by
  rcases r with ⟨ls, issue, g, ir⟩
  cases ls with
  | none => simp [acc_loan_keep]
  | some st =>
      simp only [acc_loan_keep, Bool.and_eq_true, Bool.not_eq_true',
        Bool.or_eq_false_iff, Bool.and_eq_false_iff]
      constructor
      · rintro ⟨⟨hpre, hlt⟩, hanom⟩
        refine ⟨⟨st, rfl, by rw [Bool.not_eq_true]; exact hpre⟩,
          by rw [Bool.not_eq_true]; exact hlt, ?_⟩
        rintro (⟨hg, hr⟩ | ⟨hg, hr⟩)
        · rcases hanom.1 with h | h
          · simp only [bne_eq_false_iff_eq] at h
            exact hg h
          · rw [decide_eq_false_iff_not] at h
            exact h hr
        · rcases hanom.2 with h | h
          · rw [beq_eq_false_iff_ne] at h
            exact h hg
          · rw [decide_eq_false_iff_not] at h
            exact h hr
      · rintro ⟨⟨st', hst', hpre⟩, hlt, hanom⟩
        rw [Option.some_inj] at hst'
        subst hst'
        refine ⟨⟨by rw [← Bool.not_eq_true]; exact hpre,
          by rw [← Bool.not_eq_true]; exact hlt⟩, ?_, ?_⟩
        · by_cases hg : g = "A"
          · left
            simp [hg]
          · right
            rw [decide_eq_false_iff_not]
            intro hr
            exact hanom (Or.inl ⟨hg, hr⟩)
        · by_cases hg : g = "D"
          · right
            rw [decide_eq_false_iff_not]
            intro hr
            exact hanom (Or.inr ⟨hg, hr⟩)
          · left
            rw [beq_eq_false_iff_ne]
            exact hg

/-- C5: a row of the accepted-loans table survives `filter_acc_loan_data`
exactly when `loan_status` is non-null and does not start with
`"Does not meet"`, `issue_d` is at least `"2012-01"` lexicographically, and
the row is not one of the two anomalous grade/interest-rate combinations; in
particular grade `"D"` with rate 8 is excluded, grade `"D"` with rate 9 is
retained, and issue date `"2011-12"` is excluded regardless of the other
fields. -/
theorem filter_acc_loan_data_spec :
    (∀ (data : List AccLoanRow) (r : AccLoanRow),
        r ∈ filter_acc_loan_data data ↔
          r ∈ data ∧
            (∃ st, r.loan_status = some st ∧
                ¬ List.isPrefixOf "Does not meet".data st.data) ∧
            ¬ lexLt r.issue_d.data "2012-01".data ∧
            ¬ ((r.grade ≠ "A" ∧ r.int_rate < 7) ∨ (r.grade = "D" ∧ r.int_rate < 9)))
    ∧ acc_loan_keep ⟨some "Fully Paid", "2015-01", "D", 8⟩ = false
    ∧ acc_loan_keep ⟨some "Fully Paid", "2015-01", "D", 9⟩ = true
    ∧ (∀ (ls : Option String) (g : String) (ir : ℚ),
        acc_loan_keep ⟨ls, "2011-12", g, ir⟩ = false) := by
  refine ⟨?_, by decide, by decide, ?_⟩
  · intro data r
    rw [filter_acc_loan_data, List.mem_filter, acc_loan_keep_iff]
  · intro ls g ir
    have hlt : lexLt ("2011-12" : String).data ("2012-01" : String).data = true := by decide
    cases ls <;> simp [acc_loan_keep, hlt]

/-- Witness for C5: the retained grade-D rate-9 row is a member of the
filtered singleton table. -/
theorem filter_acc_loan_data_spec_witness :
    (⟨some "Fully Paid", "2015-01", "D", 9⟩ : AccLoanRow) ∈
      filter_acc_loan_data [⟨some "Fully Paid", "2015-01", "D", 9⟩] :=
  (filter_acc_loan_data_spec.1 _ _).mpr
    ⟨by decide, ⟨"Fully Paid", rfl, by decide⟩, by decide, by decide⟩

/-- Lower-casing fixes a list of decimal digit characters. -/
theorem map_toLower_digits {l : List Char} (h : ∀ c ∈ l, c ∈ digitChars) :
    l.map Char.toLower = l := by
  calc l.map Char.toLower = l.map id :=
        List.map_congr_left (fun c hc => digit_toLower (h c hc))
    _ = l := List.map_id l

/-- C3: on an input of the form month-abbreviation, hyphen, digits, the date
normalizer lower-cases the month token, maps it through the fixed 12-entry
month table, and returns `year ++ "-" ++ month_number`; `"Jun-2015"` yields
`"2015-06"`, `"Dec-2007"` yields `"2007-12"`, and a null cell is propagated
unchanged by the conversion pass. -/
theorem get_iso_date_string_spec :
    (∀ mon year num : String,
        dictGet define_month_conversions (toLowerStr mon) = some num →
        (∀ c ∈ year.data, c ∈ digitChars) →
        get_iso_date_string (mon ++ "-" ++ year) = Except.ok (year ++ "-" ++ num))
    ∧ get_iso_date_string "Jun-2015" = Except.ok "2015-06"
    ∧ get_iso_date_string "Dec-2007" = Except.ok "2007-12"
    ∧ convert_date_cell none = Except.ok none := by
  refine ⟨?_, rfl, rfl, rfl⟩
  intro mon year num hlook hdig
  have hmem := dictGet_mem _ _ _ hlook
  have hkeys : ∀ p ∈ define_month_conversions, ∀ c ∈ (p.1).data, c ≠ '-' := by decide
  have hkey : ∀ c ∈ (toLowerStr mon).data, c ≠ '-' := hkeys _ hmem
  have hyd : ∀ c ∈ year.data, c ≠ '-' := fun c hc => digit_ne_hyphen (hdig c hc)
  have hdata : (toLowerStr (mon ++ "-" ++ year)).data
      = (toLowerStr mon).data ++ '-' :: year.data := by
    show ((mon ++ "-" ++ year).data.map Char.toLower)
        = mon.data.map Char.toLower ++ '-' :: year.data
    rw [String.data_append, String.data_append, List.map_append, List.map_append,
      map_toLower_digits hdig, List.append_assoc]
    rfl
  have hsplit : splitHyphen (toLowerStr (mon ++ "-" ++ year)).data
      = [(toLowerStr mon).data, year.data] := by
    rw [hdata]
    exact splitHyphen_pair _ _ hkey hyd
  unfold get_iso_date_string
  rw [hsplit]
  show (match dictGet define_month_conversions (String.mk (toLowerStr mon).data) with
    | some label => Except.ok (String.mk year.data ++ "-" ++ label)
    | none => Except.error (PyErr.keyError (String.mk (toLowerStr mon).data)))
      = Except.ok (year ++ "-" ++ num)
  rw [show String.mk (toLowerStr mon).data = toLowerStr mon from rfl, hlook]

/-- Witness for C3 at the month token `"Jun"` and year `"2015"`. -/
theorem get_iso_date_string_spec_witness :
    dictGet define_month_conversions (toLowerStr "Jun") = some "06" ∧
      get_iso_date_string ("Jun" ++ "-" ++ "2015") = Except.ok ("2015" ++ "-" ++ "06") :=
  ⟨by decide, get_iso_date_string_spec.1 "Jun" "2015" "06" (by decide) (by decide)⟩

/-- C4: a non-null input whose split does not have exactly one hyphen, or
whose lower-cased month token is not a key of the month table, makes the date
normalizer raise instead of returning a value. -/
theorem get_iso_date_string_malformed :
    ∀ s : String,
      (s.data.count '-' ≠ 1 ∨
        (∃ mc rest, splitHyphen (toLowerStr s).data = mc :: rest ∧
          dictGet define_month_conversions (String.mk mc) = none)) →
      (get_iso_date_string s).isOk = false := by
  intro s h
  have hlen : (splitHyphen (toLowerStr s).data).length = s.data.count '-' + 1 := by
    unfold splitHyphen
    rw [splitHyphenAux_length]
    rw [show (toLowerStr s).data = s.data.map Char.toLower from rfl]
    rw [count_hyphen_map_toLower]
  rcases h with h | ⟨mc, rest, hsplit, hget⟩
  · unfold get_iso_date_string
    rcases hl : splitHyphen (toLowerStr s).data with _ | ⟨a, _ | ⟨b, _ | ⟨c, tl⟩⟩⟩
    · rfl
    · rfl
    · exfalso
      rw [hl] at hlen
      simp at hlen
      exact h hlen
    · rfl
  · unfold get_iso_date_string
    rw [hsplit]
    rcases rest with _ | ⟨yc, tl⟩
    · rfl
    · rcases tl with _ | ⟨z, tl2⟩
      · show (match dictGet define_month_conversions (String.mk mc) with
          | some label => Except.ok (String.mk yc ++ "-" ++ label)
          | none => Except.error (PyErr.keyError (String.mk mc))).isOk = false
        rw [hget]
        rfl
      · rfl

/-- Witness for C4 at the unrecognized month token of `"Foo-2015"`. -/
theorem get_iso_date_string_malformed_witness :
    (get_iso_date_string "Foo-2015").isOk = false :=
  get_iso_date_string_malformed "Foo-2015"
    (Or.inr ⟨"foo".data, ["2015".data], by decide, by decide⟩)

/-- Evaluating `parseYM` on a string of shape four digits, hyphen, two digits with a
month between 1 and 12 returns the two parsed numbers. -/
theorem parseYM_eq (s : String) (ys ms : List Char) (hdata : s.data = ys ++ '-' :: ms)
    (h4 : ys.length = 4) (h2 : ms.length = 2) (hd1 : ∀ c ∈ ys, c ∈ digitChars)
    (hd2 : ∀ c ∈ ms, c ∈ digitChars) (hlo : 1 ≤ parseVal ms) (hhi : parseVal ms ≤ 12) :
    parseYM s = some (parseVal ys, parseVal ms) := by
  unfold parseYM
  rw [hdata, splitHyphen_pair _ _ (fun c hc => digit_ne_hyphen (hd1 c hc))
    (fun c hc => digit_ne_hyphen (hd2 c hc))]
  show (if ys.length = 4 ∧ ms.length = 2 ∧ (∀ c ∈ ys, c ∈ digitChars) ∧
      (∀ c ∈ ms, c ∈ digitChars) ∧ 1 ≤ parseVal ms ∧ parseVal ms ≤ 12 then
    some (parseVal ys, parseVal ms) else none) = some (parseVal ys, parseVal ms)
  rw [if_pos ⟨h4, h2, hd1, hd2, hlo, hhi⟩]

/-- Equation lemma exposing `durationRow` as a match on the two converted
cells. -/
theorem durationRow_def (a b : Option String) :
    durationRow (a, b) =
      match to_period_cell a, to_period_cell b with
      | Except.error e, _ => Except.error e
      | Except.ok _, Except.error e => Except.error e
      | Except.ok startP, Except.ok endP =>
          match startP, endP with
          | some (y1, m1), some (y2, m2) =>
              Except.ok (some ((y2 * 12 + m2 : Int) - (y1 * 12 + m1 : Int)))
          | _, _ => Except.ok none := rfl

/-- Unfolding of the nanosecond-timestamp range check. -/
theorem in_timestamp_bounds_iff (p : Nat × Nat) :
    in_timestamp_bounds p = true ↔
      1677 * 12 + 10 ≤ p.1 * 12 + p.2 ∧ p.1 * 12 + p.2 ≤ 2262 * 12 + 4 := by
  unfold in_timestamp_bounds
  rw [Bool.and_eq_true, decide_eq_true_eq, decide_eq_true_eq]

/-- A parsed, in-range cell converts to its period. -/
theorem to_period_cell_some (s : String) (p : Nat × Nat) (hp : parseYM s = some p)
    (hb : in_timestamp_bounds p = true) :
    to_period_cell (some s) = Except.ok (some p) := by
  show (match parseYM s with
    | some p =>
        if in_timestamp_bounds p then Except.ok (some p)
        else Except.error "OutOfBoundsDatetime: Out of bounds nanosecond timestamp"
    | none =>
        Except.error "ValueError: time data does not match ISO8601 format") =
      Except.ok (some p)
  rw [hp]
  exact if_pos hb

/-- An unparsable cell raises in the conversion. -/
theorem to_period_cell_fail (s : String) (hp : parseYM s = none) :
    to_period_cell (some s) =
      Except.error "ValueError: time data does not match ISO8601 format" := by
  show (match parseYM s with
    | some p =>
        if in_timestamp_bounds p then Except.ok (some p)
        else Except.error "OutOfBoundsDatetime: Out of bounds nanosecond timestamp"
    | none =>
        Except.error "ValueError: time data does not match ISO8601 format") = _
  rw [hp]

/-- A parsed cell outside the nanosecond-timestamp range raises in the
conversion. -/
theorem to_period_cell_out_of_bounds (s : String) (p : Nat × Nat)
    (hp : parseYM s = some p) (hb : ¬ in_timestamp_bounds p = true) :
    to_period_cell (some s) =
      Except.error "OutOfBoundsDatetime: Out of bounds nanosecond timestamp" := by
  show (match parseYM s with
    | some p =>
        if in_timestamp_bounds p then Except.ok (some p)
        else Except.error "OutOfBoundsDatetime: Out of bounds nanosecond timestamp"
    | none =>
        Except.error "ValueError: time data does not match ISO8601 format") = _
  rw [hp]
  exact if_neg hb

/-- C1 (amended): on rows whose non-null cells are well-formed `"YYYY-MM"`
strings denoting months within the nanosecond-timestamp range 1677-10 through
2262-04, `get_duration` computes `(end_year * 12 + end_month) -
(start_year * 12 + start_month)` as a signed integer, the duration from a
month to itself is 0, the duration from `"2015-12"` to `"2016-06"` is 6, and
a null endpoint makes the result of the row null.  The range restriction is
forced: outside it `pd.to_datetime` raises `OutOfBoundsDatetime`, see
`get_duration_spec_counterexample`. -/
theorem get_duration_spec :
    (∀ (s e : String) (ys ms ye me : List Char),
        s.data = ys ++ '-' :: ms → e.data = ye ++ '-' :: me →
        ys.length = 4 → ms.length = 2 → ye.length = 4 → me.length = 2 →
        (∀ c ∈ ys, c ∈ digitChars) → (∀ c ∈ ms, c ∈ digitChars) →
        (∀ c ∈ ye, c ∈ digitChars) → (∀ c ∈ me, c ∈ digitChars) →
        1 ≤ parseVal ms → parseVal ms ≤ 12 → 1 ≤ parseVal me → parseVal me ≤ 12 →
        1677 * 12 + 10 ≤ parseVal ys * 12 + parseVal ms →
        parseVal ys * 12 + parseVal ms ≤ 2262 * 12 + 4 →
        1677 * 12 + 10 ≤ parseVal ye * 12 + parseVal me →
        parseVal ye * 12 + parseVal me ≤ 2262 * 12 + 4 →
        durationRow (some s, some e) =
          Except.ok (some ((parseVal ye * 12 + parseVal me : Int)
            - (parseVal ys * 12 + parseVal ms : Int))))
    ∧ (∀ s : String, (to_period_cell (some s)).isOk = true →
        durationRow (some s, some s) = Except.ok (some 0))
    ∧ durationRow (some "2015-12", some "2016-06") = Except.ok (some 6)
    ∧ (∀ c : Option String, (to_period_cell c).isOk = true →
        durationRow (none, c) = Except.ok none ∧ durationRow (c, none) = Except.ok none)
    ∧ (∀ (rows : List (Option String × Option String)) (out : List (Option Int)),
        get_duration rows = Except.ok out →
          List.Forall₂ (fun r v => durationRow r = Except.ok v) rows out) := by
  refine ⟨?_, ?_, by rfl, ?_, ?_⟩
  · intro s e ys ms ye me hs he h4 h2 h4e h2e hd1 hd2 hd1e hd2e hlo hhi hloe hhie
    intro hbs1 hbs2 hbe1 hbe2
    rw [durationRow_def,
      to_period_cell_some s _ (parseYM_eq s ys ms hs h4 h2 hd1 hd2 hlo hhi)
        ((in_timestamp_bounds_iff (parseVal ys, parseVal ms)).mpr ⟨hbs1, hbs2⟩),
      to_period_cell_some e _ (parseYM_eq e ye me he h4e h2e hd1e hd2e hloe hhie)
        ((in_timestamp_bounds_iff (parseVal ye, parseVal me)).mpr ⟨hbe1, hbe2⟩)]
  · intro s hok
    rcases hp : parseYM s with _ | ⟨y, m⟩
    · rw [to_period_cell_fail s hp] at hok
      cases hok
    · by_cases hb : in_timestamp_bounds (y, m) = true
      · rw [durationRow_def, to_period_cell_some s _ hp hb]
        show Except.ok (some ((y * 12 + m : Int) - (y * 12 + m : Int))) = Except.ok (some 0)
        rw [sub_self]
      · rw [to_period_cell_out_of_bounds s _ hp hb] at hok
        cases hok
  · intro c hok
    cases c with
    | none => exact ⟨rfl, rfl⟩
    | some s =>
        rcases hp : parseYM s with _ | p
        · exfalso
          rw [to_period_cell_fail s hp] at hok
          cases hok
        · rcases p with ⟨y, m⟩
          by_cases hb : in_timestamp_bounds (y, m) = true
          · rw [durationRow_def, durationRow_def, to_period_cell_some s _ hp hb]
            exact ⟨rfl, rfl⟩
          · exfalso
            rw [to_period_cell_out_of_bounds s _ hp hb] at hok
            cases hok
  · intro rows
    induction rows with
    | nil =>
        intro out h
        unfold get_duration at h
        rw [Except.ok.injEq] at h
        subst h
        exact List.Forall₂.nil
    | cons r rest ih =>
        intro out h
        unfold get_duration at h
        rcases hr : durationRow r with e | v
        · rw [hr] at h
          cases h
        · rw [hr] at h
          rcases hrest : get_duration rest with e | tail
          · rw [hrest] at h
            cases h
          · rw [hrest] at h
            rw [Except.ok.injEq] at h
            subst h
            exact List.Forall₂.cons hr (ih tail hrest)

/-- Witness for C1 applying the general formula to the concrete row from
`"2015-12"` to `"2016-06"`. -/
theorem get_duration_spec_witness :
    durationRow (some "2015-12", some "2016-06") =
      Except.ok (some ((parseVal ['2', '0', '1', '6'] * 12 + parseVal ['0', '6'] : Int)
        - (parseVal ['2', '0', '1', '5'] * 12 + parseVal ['1', '2'] : Int))) :=
  get_duration_spec.1 "2015-12" "2016-06" ['2', '0', '1', '5'] ['1', '2']
    ['2', '0', '1', '6'] ['0', '6'] (by decide) (by decide) (by decide) (by decide)
    (by decide) (by decide) (by decide) (by decide) (by decide) (by decide)
    (by decide) (by decide) (by decide) (by decide) (by decide) (by decide)
    (by decide) (by decide)

/-- Counterexample to C1 as originally stated: `"2500-01"` is a well-formed
`"YYYY-MM"` string, yet the row from `"2500-01"` to itself raises
`OutOfBoundsDatetime` (the month is outside the nanosecond-timestamp range)
instead of returning the duration 0 the unrestricted claim asserts. -/
theorem get_duration_spec_counterexample :
    durationRow (some "2500-01", some "2500-01") =
      Except.error "OutOfBoundsDatetime: Out of bounds nanosecond timestamp"
    ∧ durationRow (some "2500-01", some "2500-01") ≠ Except.ok (some 0) := by
  constructor
  · rfl
  · intro h
    have heval : durationRow (some "2500-01", some "2500-01") =
        Except.error "OutOfBoundsDatetime: Out of bounds nanosecond timestamp" := rfl
    rw [heval] at h
    cases h

/-- Equation lemma for `get_annualized_return` on a row with a non-null
duration. -/
theorem get_annualized_return_cons (p : Option ℝ) (v : Int)
    (rest : List (Option ℝ × Option Int)) :
    get_annualized_return ((p, some v) :: rest) =
      match get_annualized_return rest with
      | Except.ok tail =>
          Except.ok (annualized_cell p (if 1 ≤ v then v else 1) :: tail)
      | Except.error e => Except.error e := rfl

/-- C2: a row with non-null profit `p` and non-null duration `d` contributes
`(1 + p) ^ (12 / max d 1) - 1` to the result of `get_annualized_return` —
durations of zero or negative are clamped to 1 — and consequently the result
for profit 0.04 with duration 0 equals the result for profit 0.04 with
duration 1. -/
theorem get_annualized_return_spec :
    (∀ (p : ℝ) (d : Int) (rest : List (Option ℝ × Option Int)),
        get_annualized_return ((some p, some d) :: rest) =
          Except.map
            (fun tail =>
              some ((1 + p) ^ ((12 : ℝ) / ((max d 1 : Int) : ℝ)) - 1) :: tail)
            (get_annualized_return rest))
    ∧ (∀ (p : Option ℝ) (rest : List (Option ℝ × Option Int)),
        get_annualized_return ((p, some 0) :: rest) =
          get_annualized_return ((p, some 1) :: rest))
    ∧ get_annualized_return [(some (1 / 25 : ℝ), some 0)] =
        get_annualized_return [(some (1 / 25 : ℝ), some 1)] := by
  have hclamp : ∀ d : Int, (if 1 ≤ d then d else 1) = max d 1 := by
    intro d
    rcases le_or_lt 1 d with h | h
    · rw [if_pos h, max_eq_left h]
    · rw [if_neg (not_le.mpr h), max_eq_right h.le]
  have hB : ∀ (p : Option ℝ) (rest : List (Option ℝ × Option Int)),
      get_annualized_return ((p, some 0) :: rest) =
        get_annualized_return ((p, some 1) :: rest) := by
    intro p rest
    rw [get_annualized_return_cons, get_annualized_return_cons]
    norm_num
  refine ⟨?_, hB, hB _ _⟩
  intro p d rest
  rw [get_annualized_return_cons, hclamp d]
  cases h : get_annualized_return rest with
  | ok tail => rw [Except.map, annualized_cell]
  | error e => rw [Except.map]

/-- C9: a null duration cell is a precondition violation of
`get_annualized_return`: the clamp evaluates `val >= 1` on the null marker,
which raises, so any input containing a null duration produces an error
rather than a null result. -/
theorem get_annualized_return_null_duration :
    ∀ rows : List (Option ℝ × Option Int),
      (∃ p, (p, (none : Option Int)) ∈ rows) →
      (get_annualized_return rows).isOk = false := by
  intro rows h
  rcases h with ⟨p, hmem⟩
  induction rows with
  | nil => cases hmem
  | cons r rest ih =>
      rcases r with ⟨q, d⟩
      cases d with
      | none => rfl
      | some v =>
          have hmem2 : (p, (none : Option Int)) ∈ rest := by
            rcases List.mem_cons.mp hmem with h1 | h2
            · exfalso
              rw [Prod.mk.injEq] at h1
              cases h1.2
            · exact h2
          have hrest := ih hmem2
          rw [get_annualized_return_cons]
          cases h : get_annualized_return rest with
          | ok tail =>
              rw [h] at hrest
              cases hrest
          | error e => rfl

/-- Witness for C9: the singleton input with profit 0.04 and a null duration
errors. -/
theorem get_annualized_return_null_duration_witness :
    (get_annualized_return [(some (1 / 25 : ℝ), none)]).isOk = false :=
  get_annualized_return_null_duration [(some (1 / 25 : ℝ), none)]
    ⟨some (1 / 25 : ℝ), List.mem_singleton.mpr rfl⟩

/-- Rendering a natural number through the integer embedding. -/
theorem toString_int_natCast (v : Nat) : toString ((v : Int)) = toString v := rfl

/-- Applying `format(n, ",")` to a non-negative integer is the natural-number
grouping. -/
theorem commaGroupInt_natCast (n : Nat) : commaGroupInt (n : Int) = commaGroupNat n := by
  unfold commaGroupInt
  rw [if_neg (by omega)]
  have h : ((n : Int)).toNat = n := by omega
  rw [h]

/-- Truncating an embedded natural number is the identity. -/
theorem intTrunc_natCast (v : Nat) : intTrunc ((v : ℕ) : ℚ) = (v : Int) := by
  unfold intTrunc
  rw [if_pos (by positivity)]
  exact Int.floor_natCast v

/-- Branch lemma: small values render plainly. -/
theorem format_counts_core_small (v : Nat) (h : v < 1000) :
    format_counts_core (v : Int) = toString v := by
  unfold format_counts_core
  rw [if_pos (by omega : ((v : Int)) < 1000)]
  exact toString_int_natCast v

/-- Embedded remainder by 1,000. -/
theorem int_emod_cast_k (v : Nat) : Int.emod (v : Int) 1000 = ((v % 1000 : Nat) : Int) := rfl

/-- Embedded quotient by 1,000. -/
theorem int_ediv_cast_k (v : Nat) : Int.ediv (v : Int) 1000 = ((v / 1000 : Nat) : Int) := rfl

/-- Embedded remainder by 1,000,000. -/
theorem int_emod_cast_m (v : Nat) :
    Int.emod (v : Int) 1000000 = ((v % 1000000 : Nat) : Int) := rfl

/-- Embedded quotient by 1,000,000. -/
theorem int_ediv_cast_m (v : Nat) :
    Int.ediv (v : Int) 1000000 = ((v / 1000000 : Nat) : Int) := rfl

/-- Branch lemma: thousands exactly divisible by 1,000. -/
theorem format_counts_core_k_div (v : Nat) (h1 : 1000 ≤ v) (h2 : v < 1000000)
    (h3 : v % 1000 = 0) :
    format_counts_core (v : Int) = commaGroupNat (v / 1000) ++ "k" := by
  unfold format_counts_core
  rw [int_emod_cast_k v, int_ediv_cast_k v]
  rw [if_neg (by omega), if_pos (by omega : ((v : Int)) < 1000000),
    if_pos (by omega : ((v % 1000 : Nat) : Int) = 0)]
  rw [commaGroupInt_natCast]

/-- Branch lemma: thousands not divisible by 1,000. -/
theorem format_counts_core_k_2f (v : Nat) (h1 : 1000 ≤ v) (h2 : v < 1000000)
    (h3 : v % 1000 ≠ 0) :
    format_counts_core (v : Int) = floatDivRender2f v 1000 ++ "k" := by
  unfold format_counts_core
  rw [int_emod_cast_k v]
  rw [if_neg (by omega), if_pos (by omega : ((v : Int)) < 1000000),
    if_neg (by omega : ¬ ((v % 1000 : Nat) : Int) = 0)]
  have ht : ((v : Int)).toNat = v := by omega
  rw [ht]

/-- Branch lemma: millions exactly divisible by 1,000,000. -/
theorem format_counts_core_m_div (v : Nat) (h1 : 1000000 ≤ v) (h3 : v % 1000000 = 0) :
    format_counts_core (v : Int) = commaGroupNat (v / 1000000) ++ "M" := by
  unfold format_counts_core
  rw [int_emod_cast_m v, int_ediv_cast_m v]
  rw [if_neg (by omega), if_neg (by omega : ¬ ((v : Int)) < 1000000),
    if_pos (by omega : ((v % 1000000 : Nat) : Int) = 0)]
  rw [commaGroupInt_natCast]

/-- Branch lemma: millions not divisible by 1,000,000. -/
theorem format_counts_core_m_2f (v : Nat) (h1 : 1000000 ≤ v) (h3 : v % 1000000 ≠ 0) :
    format_counts_core (v : Int) = floatDivRender2f v 1000000 ++ "M" := by
  unfold format_counts_core
  rw [int_emod_cast_m v]
  rw [if_neg (by omega), if_neg (by omega : ¬ ((v : Int)) < 1000000),
    if_neg (by omega : ¬ ((v % 1000000 : Nat) : Int) = 0)]
  have ht : ((v : Int)).toNat = v := by omega
  rw [ht]

/-- C6: for a non-negative integer tick value, `format_counts` renders values
below 1,000 plainly, values below 1,000,000 as thousands with suffix `k`
(comma-grouped quotient when divisible by 1,000, else the quotient with
exactly two decimals), and the same rule with divisor 1,000,000 and suffix
`M` above; 750,000 renders as `"750k"`, 1,000,000 as `"1M"`, 1,250,000 as
`"1.25M"`, and 999 as `"999"`. -/
theorem format_counts_spec :
    (∀ (v : Nat) (pos : ℚ),
        (v < 1000 → format_counts ((v : ℕ) : ℚ) pos = toString v)
        ∧ (1000 ≤ v → v < 1000000 → v % 1000 = 0 →
            format_counts ((v : ℕ) : ℚ) pos = commaGroupNat (v / 1000) ++ "k")
        ∧ (1000 ≤ v → v < 1000000 → v % 1000 ≠ 0 →
            format_counts ((v : ℕ) : ℚ) pos = floatDivRender2f v 1000 ++ "k")
        ∧ (1000000 ≤ v → v % 1000000 = 0 →
            format_counts ((v : ℕ) : ℚ) pos = commaGroupNat (v / 1000000) ++ "M")
        ∧ (1000000 ≤ v → v % 1000000 ≠ 0 →
            format_counts ((v : ℕ) : ℚ) pos = floatDivRender2f v 1000000 ++ "M"))
    ∧ (∀ pos : ℚ,
        format_counts (750000 : ℚ) pos = "750k"
        ∧ format_counts (1000000 : ℚ) pos = "1M"
        ∧ format_counts (1250000 : ℚ) pos = "1.25M"
        ∧ format_counts (999 : ℚ) pos = "999") := by
  have hcast : ∀ v : Nat, ∀ pos : ℚ,
      format_counts ((v : ℕ) : ℚ) pos = format_counts_core (v : Int) := by
    intro v pos
    unfold format_counts
    rw [intTrunc_natCast]
  constructor
  · intro v pos
    refine ⟨?_, ?_, ?_, ?_, ?_⟩
    · intro h
      rw [hcast, format_counts_core_small v h]
    · intro h1 h2 h3
      rw [hcast, format_counts_core_k_div v h1 h2 h3]
    · intro h1 h2 h3
      rw [hcast, format_counts_core_k_2f v h1 h2 h3]
    · intro h1 h3
      rw [hcast, format_counts_core_m_div v h1 h3]
    · intro h1 h3
      rw [hcast, format_counts_core_m_2f v h1 h3]
  · intro pos
    have h750 : (750000 : ℚ) = ((750000 : ℕ) : ℚ) := by norm_num
    have h1m : (1000000 : ℚ) = ((1000000 : ℕ) : ℚ) := by norm_num
    have h125 : (1250000 : ℚ) = ((1250000 : ℕ) : ℚ) := by norm_num
    have h999 : (999 : ℚ) = ((999 : ℕ) : ℚ) := by norm_num
    refine ⟨?_, ?_, ?_, ?_⟩
    · rw [h750, hcast]
      decide
    · rw [h1m, hcast]
      decide
    · rw [h125, hcast]
      decide
    · rw [h999, hcast]
      decide

/-- Witness for C6 at the tick values 500 and 2,500. -/
theorem format_counts_spec_witness :
    format_counts ((500 : ℕ) : ℚ) 0 = toString (500 : ℕ) ∧
      format_counts ((2500 : ℕ) : ℚ) 0 = floatDivRender2f 2500 1000 ++ "k" :=
  ⟨(format_counts_spec.1 500 0).1 (by decide),
    (format_counts_spec.1 2500 0).2.2.1 (by decide) (by decide) (by decide)⟩

/-- C10: `format_counts` truncates its tick value toward zero before
formatting, so on non-negative inputs it agrees with itself at the floor of
the input; 999.9 renders as `"999"`. -/
theorem format_counts_truncates :
    (∀ x pos : ℚ, 0 ≤ x → format_counts x pos = format_counts ((⌊x⌋ : ℤ) : ℚ) pos)
    ∧ (∀ pos : ℚ, format_counts (999.9 : ℚ) pos = "999") := by
  constructor
  · intro x pos hx
    unfold format_counts
    have h1 : intTrunc x = ⌊x⌋ := by
      unfold intTrunc
      rw [if_pos hx]
    have h2 : intTrunc ((⌊x⌋ : ℤ) : ℚ) = ⌊x⌋ := by
      unfold intTrunc
      rw [if_pos (by exact_mod_cast Int.floor_nonneg.mpr hx), Int.floor_intCast]
    rw [h1, h2]
  · intro pos
    unfold format_counts
    have h : intTrunc (999.9 : ℚ) = 999 := by
      unfold intTrunc
      rw [if_pos (by norm_num)]
      norm_num
    rw [h]
    decide

/-- Witness for C10 at the tick value 999.9. -/
theorem format_counts_truncates_witness :
    format_counts (999.9 : ℚ) 0 = format_counts ((⌊(999.9 : ℚ)⌋ : ℤ) : ℚ) 0 :=
  format_counts_truncates.1 (999.9 : ℚ) 0 (by norm_num)
